import Mathlib

/-!
# Request handlers of `handler/user.go`

A shallow embedding of the address and session handlers of the restaurant
management backend, with the properties of their inline validation.

Modelling conventions.

* A Go `string` is a Lean `String`; Go's `len` is the number of bytes of the
  UTF-8 encoding, `String.utf8ByteSize`.
* A `float64` that was decoded from a JSON body or read from a stored address
  is finite, and comparisons between finite doubles and the integer literals
  `0`, `90`, `-90`, `180`, `-180` agree with the comparisons of the numbers
  they denote, so such a value is a rational number.
* A handler is a function of its inputs and of the behaviour of the database
  helpers; it returns the list of database calls it made, in order, and the
  response it wrote.
-/

namespace handler

/-- Go's builtin `len` on a string: the number of bytes. -/
def len (s : String) : Nat := s.utf8ByteSize

/-- The request body `models.AddUserAddressBody`, with the fields the handlers read. -/
structure AddUserAddressBody where
  Address : String
  State : String
  City : String
  PinCode : String
  Lat : ℚ
  Lng : ℚ
  deriving DecidableEq, Repr

/-- A stored address of a user, `models.UserAddress`. -/
structure UserAddress where
  ID : String
  Address : String
  State : String
  City : String
  PinCode : String
  Lat : ℚ
  Lng : ℚ
  deriving DecidableEq, Repr

/-- The part of the user context (`middlewares.UserContext`) the handlers read. -/
structure UserCtx where
  ID : String
  UserAddresses : List UserAddress
  deriving DecidableEq, Repr

/-- A call to a helper of package `dbHelper`, with its arguments in source order. -/
inductive DbCall where
  | CreateUserAddress (userID address state city pinCode : String) (lat lng : ℚ)
  | UpdateUserAddress (addressId address state city pinCode : String) (lat lng : ℚ)
  | DeleteSessionToken (token : String)
  deriving DecidableEq, Repr

/-- What `utils.RespondError` and `utils.RespondJSON` write: status code and message. -/
structure Response where
  status : Nat
  message : String
  deriving DecidableEq, Repr

/-- The observable effect of one handler run. -/
structure Result where
  calls : List DbCall
  response : Response
  deriving DecidableEq, Repr

/-- The database: each helper call returns `none` (nil error) or `some err`. -/
abbrev Db := DbCall → Option String

def StatusCreated : Nat := 201
def StatusAccepted : Nat := 202
def StatusBadRequest : Nat := 400
def StatusInternalServerError : Nat := 500

/-- The handler `AddAddress` (user.go, lines 122-176). The body is the outcome of
`utils.ParseBody`: an error or the decoded body. -/
def AddAddress (db : Db) (userCtx : UserCtx) (parsed : Except String AddUserAddressBody) :
    Result := Id.run do
  match parsed with
  | .error _ => return ⟨[], ⟨StatusBadRequest, "Failed to parse request body"⟩⟩
  | .ok body =>
    if len body.Address > 30 || len body.Address <= 2 then
      return ⟨[], ⟨StatusBadRequest, "Address must be with in 2 to 30 letter."⟩⟩
    if len body.State > 16 || len body.State <= 2 then
      return ⟨[], ⟨StatusBadRequest, "State must be with in 2 to 16 letter."⟩⟩
    if len body.City > 20 || len body.City <= 2 then
      return ⟨[], ⟨StatusBadRequest, "City must be with in 2 to 20 letter."⟩⟩
    if len body.PinCode != 6 then
      return ⟨[], ⟨StatusBadRequest, "PinCode must 6 digit."⟩⟩
    if body.Lat > 90 || body.Lat < -90 then
      return ⟨[], ⟨StatusBadRequest, "Invalid Latitude."⟩⟩
    if body.Lng > 180 || body.Lng < -180 then
      return ⟨[], ⟨StatusBadRequest, "Invalid Longitude."⟩⟩
    let call := DbCall.CreateUserAddress userCtx.ID body.Address body.State body.City
      body.PinCode body.Lat body.Lng
    let addressErr := db call
    if addressErr != none then
      return ⟨[call], ⟨StatusBadRequest, "Failed to create Address"⟩⟩
    return ⟨[call], ⟨StatusCreated, "Address Created successfully."⟩⟩

end handler

namespace utils

open handler

/-- Modelled from the spec: `utils.GetUserAddressById` is not part of the sources.
Given an identifier and the caller's own addresses it returns the matching
address, or fails (`none`) when no address of the list has that identifier. -/
def GetUserAddressById (addressId : String) (userAddresses : List UserAddress) :
    Option UserAddress :=
  userAddresses.find? (fun a => a.ID == addressId)

end utils

namespace strings

/-- The pieces of a character sequence between the occurrences of `sep`. -/
def splitChars (sep : Char) : List Char → List (List Char)
  | [] => [[]]
  | c :: cs =>
    if c = sep then [] :: splitChars sep cs
    else
      match splitChars sep cs with
      | [] => [[c]]
      | w :: ws => (c :: w) :: ws

/-- Go's `strings.Split(s, sep)` for a separator of one ASCII character: the
substrings of `s` between the separators, one more than there are separators. -/
def Split (s : String) (sep : Char) : List String :=
  (splitChars sep s.data).map String.mk

end strings

namespace handler

/-- The method `r.Header.Get(key)`: the header value, or `""` when the header is absent. -/
def HeaderGet (value : Option String) : String := value.getD ""

/-- The handler `Logout` (user.go, lines 65-77). The argument is the request's
`authorization` header, if it has one. The result is `none` when the handler
panics on the index expression of line 66. -/
def Logout (db : Db) (authorization : Option String) : Option Result := do
  let token ← (strings.Split (HeaderGet authorization) ' ')[1]?
  let call := DbCall.DeleteSessionToken token
  let err := db call
  if err != none then
    return ⟨[call], ⟨StatusInternalServerError, "Failed to logout user"⟩⟩
  return ⟨[call], ⟨StatusAccepted, "Logout Successfully."⟩⟩

/-- The handler `UpdateAddress` (user.go, lines 178-260). -/
def UpdateAddress (db : Db) (userCtx : UserCtx) (addressId : String)
    (parsed : Except String AddUserAddressBody) : Result := Id.run do
  match parsed with
  | .error _ => return ⟨[], ⟨StatusBadRequest, "Failed to parse request body"⟩⟩
  | .ok parsedBody =>
    let mut body := parsedBody
    match utils.GetUserAddressById addressId userCtx.UserAddresses with
    | none => return ⟨[], ⟨StatusBadRequest, "Address not exist"⟩⟩
    | some userAddress =>
      if len body.Address > 30 || len body.Address <= 2 then
        if body.Address != "" then
          return ⟨[], ⟨StatusBadRequest, "Address must be with in 2 to 30 letter."⟩⟩
        body := { body with Address := userAddress.Address }
      if len body.State > 16 || len body.State <= 2 then
        if body.State != "" then
          return ⟨[], ⟨StatusBadRequest, "State must be with in 2 to 16 letter."⟩⟩
        body := { body with State := userAddress.State }
      if len body.City > 20 || len body.City <= 2 then
        if body.City != "" then
          return ⟨[], ⟨StatusBadRequest, "City must be with in 2 to 20 letter."⟩⟩
        body := { body with City := userAddress.City }
      if len body.PinCode != 6 then
        if body.PinCode != "" then
          return ⟨[], ⟨StatusBadRequest, "PinCode must 6 digit."⟩⟩
        body := { body with PinCode := userAddress.PinCode }
      if body.Lat > 90 || body.Lat < -90 then
        if body.Lat != 0 then
          return ⟨[], ⟨StatusBadRequest, "Invalid Latitude."⟩⟩
        body := { body with Lat := userAddress.Lat }
      if body.Lng > 180 || body.Lng < -180 then
        if body.Lat != 0 then
          return ⟨[], ⟨StatusBadRequest, "Invalid Longitude."⟩⟩
        body := { body with Lng := userAddress.Lng }
      let call := DbCall.UpdateUserAddress addressId body.Address body.State body.City
        body.PinCode body.Lat body.Lng
      let err := db call
      if err != none then
        return ⟨[call], ⟨StatusInternalServerError, "Failed to update Address:"⟩⟩
      return ⟨[call], ⟨StatusCreated, "Address Update successfully"⟩⟩

end handler

namespace handler

/-- The field rules of section 4.1, on the six values of an address. -/
def ValidFields (address state city pinCode : String) (lat lng : ℚ) : Prop :=
  (3 ≤ len address ∧ len address ≤ 30) ∧ (3 ≤ len state ∧ len state ≤ 16) ∧
  (3 ≤ len city ∧ len city ≤ 20) ∧ len pinCode = 6 ∧
  (-90 ≤ lat ∧ lat ≤ 90) ∧ (-180 ≤ lng ∧ lng ≤ 180)

instance (address state city pinCode : String) (lat lng : ℚ) :
    Decidable (ValidFields address state city pinCode lat lng) := by
  unfold ValidFields; infer_instance

/-- A database whose helpers all succeed. -/
def okDb : Db := fun _ => none

/-- A user with one stored address. -/
def sampleUser : UserCtx :=
  ⟨"u1", [⟨"a1", "12 Main Street", "Delhi", "New Delhi", "110001", 57 / 2, 77⟩]⟩

/-- An update of some fields only: empty address and pin code, latitude 0, longitude out of range. -/
def sparseBody : AddUserAddressBody :=
  ⟨"", "Goa", "Panaji", "", 0, 200⟩

/-- A request body that satisfies every rule. -/
def sampleBody : AddUserAddressBody :=
  ⟨"221B Baker Street", "Kerala", "Kochi", "682001", 10, 153 / 2⟩

theorem len_empty : len "" = 0 := rfl

/-- The run of `AddAddress` on a decoded body, as the cascade of its guards. -/
theorem AddAddress_ok (db : Db) (userCtx : UserCtx) (body : AddUserAddressBody) :
    AddAddress db userCtx (.ok body) =
      if 30 < len body.Address ∨ len body.Address ≤ 2 then
        ⟨[], ⟨400, "Address must be with in 2 to 30 letter."⟩⟩
      else if 16 < len body.State ∨ len body.State ≤ 2 then
        ⟨[], ⟨400, "State must be with in 2 to 16 letter."⟩⟩
      else if 20 < len body.City ∨ len body.City ≤ 2 then
        ⟨[], ⟨400, "City must be with in 2 to 20 letter."⟩⟩
      else if len body.PinCode ≠ 6 then
        ⟨[], ⟨400, "PinCode must 6 digit."⟩⟩
      else if 90 < body.Lat ∨ body.Lat < -90 then
        ⟨[], ⟨400, "Invalid Latitude."⟩⟩
      else if 180 < body.Lng ∨ body.Lng < -180 then
        ⟨[], ⟨400, "Invalid Longitude."⟩⟩
      else if db (DbCall.CreateUserAddress userCtx.ID body.Address body.State body.City
          body.PinCode body.Lat body.Lng) ≠ none then
        ⟨[DbCall.CreateUserAddress userCtx.ID body.Address body.State body.City
          body.PinCode body.Lat body.Lng], ⟨400, "Failed to create Address"⟩⟩
      else
        ⟨[DbCall.CreateUserAddress userCtx.ID body.Address body.State body.City
          body.PinCode body.Lat body.Lng], ⟨201, "Address Created successfully."⟩⟩ := by
  simp [AddAddress, Id.run, StatusBadRequest, StatusCreated]

/-- C1. When the four length checks of `AddAddress` pass, `CreateUserAddress` is
called (once, with the values of the body) exactly when the latitude is in
[-90, 90] and the longitude in [-180, 180]; a latitude out of range is answered
400 "Invalid Latitude.", a latitude in range with a longitude out of range
400 "Invalid Longitude.", and in both cases nothing is created. -/
theorem AddAddress_coordinates (db : Db) (userCtx : UserCtx) (body : AddUserAddressBody)
    (hA : 3 ≤ len body.Address ∧ len body.Address ≤ 30)
    (hS : 3 ≤ len body.State ∧ len body.State ≤ 16)
    (hC : 3 ≤ len body.City ∧ len body.City ≤ 20)
    (hP : len body.PinCode = 6) :
    ((AddAddress db userCtx (.ok body)).calls =
        [DbCall.CreateUserAddress userCtx.ID body.Address body.State body.City body.PinCode
          body.Lat body.Lng] ↔
      (-90 ≤ body.Lat ∧ body.Lat ≤ 90) ∧ (-180 ≤ body.Lng ∧ body.Lng ≤ 180)) ∧
    (¬ (-90 ≤ body.Lat ∧ body.Lat ≤ 90) →
      AddAddress db userCtx (.ok body) = ⟨[], ⟨400, "Invalid Latitude."⟩⟩) ∧
    ((-90 ≤ body.Lat ∧ body.Lat ≤ 90) → ¬ (-180 ≤ body.Lng ∧ body.Lng ≤ 180) →
      AddAddress db userCtx (.ok body) = ⟨[], ⟨400, "Invalid Longitude."⟩⟩) := by
  have hA' : ¬ (30 < len body.Address ∨ len body.Address ≤ 2) := by omega
  have hS' : ¬ (16 < len body.State ∨ len body.State ≤ 2) := by omega
  have hC' : ¬ (20 < len body.City ∨ len body.City ≤ 2) := by omega
  have hlat : (90 < body.Lat ∨ body.Lat < -90) ↔ ¬ (-90 ≤ body.Lat ∧ body.Lat ≤ 90) := by
    rw [not_and_or, not_le, not_le, or_comm]
  have hlng : (180 < body.Lng ∨ body.Lng < -180) ↔ ¬ (-180 ≤ body.Lng ∧ body.Lng ≤ 180) := by
    rw [not_and_or, not_le, not_le, or_comm]
  rw [AddAddress_ok, if_neg hA', if_neg hS', if_neg hC', if_neg (not_not.mpr hP)]
  by_cases h1 : 90 < body.Lat ∨ body.Lat < -90
  · have n1 : ¬ (-90 ≤ body.Lat ∧ body.Lat ≤ 90) := hlat.mp h1
    rw [if_pos h1]
    exact ⟨by simp [n1], fun _ => rfl, fun h => absurd h n1⟩
  · have p1 : -90 ≤ body.Lat ∧ body.Lat ≤ 90 := not_not.mp (mt hlat.mpr h1)
    rw [if_neg h1]
    by_cases h2 : 180 < body.Lng ∨ body.Lng < -180
    · have n2 : ¬ (-180 ≤ body.Lng ∧ body.Lng ≤ 180) := hlng.mp h2
      rw [if_pos h2]
      exact ⟨by simp [n2], fun h => absurd p1 h, fun _ _ => rfl⟩
    · have p2 : -180 ≤ body.Lng ∧ body.Lng ≤ 180 := not_not.mp (mt hlng.mpr h2)
      rw [if_neg h2]
      refine ⟨?_, fun h => absurd p1 h, fun _ h => absurd p2 h⟩
      split_ifs <;> simp [p1, p2]

theorem AddAddress_coordinates_witness :
    (AddAddress okDb sampleUser (.ok sampleBody)).calls =
      [DbCall.CreateUserAddress "u1" "221B Baker Street" "Kerala" "Kochi" "682001" 10 (153 / 2)] :=
  (AddAddress_coordinates okDb sampleUser sampleBody (by decide) (by decide) (by decide)
    (by decide)).1.mpr (by norm_num [sampleBody])

/-- C2. The address-line check of `AddAddress` passes (the request is not answered
with the address-line error) when the length `len(body.Address)` is 3 to 30, and
fails with 400 "Address must be with in 2 to 30 letter." and no database call when
the length is 0 to 2 or greater than 30. -/
theorem AddAddress_address_line (db : Db) (userCtx : UserCtx) (body : AddUserAddressBody) :
    ((3 ≤ len body.Address ∧ len body.Address ≤ 30) →
      (AddAddress db userCtx (.ok body)).response.message ≠
        "Address must be with in 2 to 30 letter.") ∧
    ((len body.Address ≤ 2 ∨ 30 < len body.Address) →
      AddAddress db userCtx (.ok body) =
        ⟨[], ⟨400, "Address must be with in 2 to 30 letter."⟩⟩) := by
  rw [AddAddress_ok]
  constructor
  · intro h
    have hA' : ¬ (30 < len body.Address ∨ len body.Address ≤ 2) := by omega
    rw [if_neg hA']
    split_ifs <;> simp
  · intro h
    rw [if_pos (Or.symm h)]

theorem AddAddress_address_line_witness :
    (AddAddress okDb sampleUser (.ok sampleBody)).response.message ≠
        "Address must be with in 2 to 30 letter." ∧
    AddAddress okDb sampleUser (.ok { sampleBody with Address := "7A" }) =
        ⟨[], ⟨400, "Address must be with in 2 to 30 letter."⟩⟩ :=
  ⟨(AddAddress_address_line okDb sampleUser sampleBody).1 (by decide),
   (AddAddress_address_line okDb sampleUser { sampleBody with Address := "7A" }).2
     (Or.inl (by decide))⟩

/-- C3, as stated, fails: a pin code of exactly six characters, here six Devanagari
digits of three bytes each, is rejected by the pin-code check, because `len`
counts bytes. -/
theorem AddAddress_pin_code_six_characters_rejected :
    String.length "१२३४५६" = 6 ∧
    AddAddress okDb sampleUser (.ok { sampleBody with PinCode := "१२३४५६" }) =
      ⟨[], ⟨400, "PinCode must 6 digit."⟩⟩ := by
  refine ⟨by decide, ?_⟩
  rw [AddAddress_ok]
  rw [if_neg (by decide), if_neg (by decide), if_neg (by decide), if_pos (by decide)]

/-- A string of ASCII characters has as many bytes as characters. -/
theorem len_of_ascii (s : String) (h : ∀ c ∈ s.data, c.toNat < 128) : len s = s.length := by
  obtain ⟨cs⟩ := s
  simp only [len, String.utf8ByteSize, String.length]
  induction cs with
  | nil => rfl
  | cons c cs ih =>
    have hc : c.toNat < 128 := h c (List.mem_cons_self _ _)
    have hcs : ∀ d ∈ cs, d.toNat < 128 := fun d hd => h d (List.mem_cons_of_mem _ hd)
    have h1 : c.utf8Size = 1 := by
      have h2 : c.val ≤ 127 := by
        rw [UInt32.le_def]
        have h3 : c.val.val.val < 128 := hc
        show c.val.val.val ≤ 127
        omega
      simp [Char.utf8Size, h2]
    simp only [String.utf8ByteSize.go, List.length_cons, h1]
    rw [ih hcs]

/-- C3 (amended). When the address, state and city checks of `AddAddress` pass, the
pin-code check passes for every code of exactly 6 bytes, whichever bytes they are,
in particular for every code of exactly 6 ASCII characters, digits or not; and it
fails with 400 "PinCode must 6 digit." and no database call for every code whose
length in bytes is not 6. -/
theorem AddAddress_pin_code (db : Db) (userCtx : UserCtx) (body : AddUserAddressBody)
    (hA : 3 ≤ len body.Address ∧ len body.Address ≤ 30)
    (hS : 3 ≤ len body.State ∧ len body.State ≤ 16)
    (hC : 3 ≤ len body.City ∧ len body.City ≤ 20) :
    (len body.PinCode = 6 →
      (AddAddress db userCtx (.ok body)).response.message ≠ "PinCode must 6 digit.") ∧
    ((∀ c ∈ body.PinCode.data, c.toNat < 128) → body.PinCode.length = 6 →
      (AddAddress db userCtx (.ok body)).response.message ≠ "PinCode must 6 digit.") ∧
    (len body.PinCode ≠ 6 →
      AddAddress db userCtx (.ok body) = ⟨[], ⟨400, "PinCode must 6 digit."⟩⟩) := by
  have hA' : ¬ (30 < len body.Address ∨ len body.Address ≤ 2) := by omega
  have hS' : ¬ (16 < len body.State ∨ len body.State ≤ 2) := by omega
  have hC' : ¬ (20 < len body.City ∨ len body.City ≤ 2) := by omega
  have key : len body.PinCode = 6 →
      (AddAddress db userCtx (.ok body)).response.message ≠ "PinCode must 6 digit." := by
    intro h
    rw [AddAddress_ok, if_neg hA', if_neg hS', if_neg hC', if_neg (not_not.mpr h)]
    split_ifs <;> simp
  refine ⟨key, fun hascii h6 => key ?_, fun h => ?_⟩
  · rw [len_of_ascii _ hascii, h6]
  · rw [AddAddress_ok, if_neg hA', if_neg hS', if_neg hC', if_pos h]

theorem AddAddress_pin_code_witness :
    (AddAddress okDb sampleUser (.ok { sampleBody with PinCode := "SW1A2A" })).response.message ≠
        "PinCode must 6 digit." ∧
    AddAddress okDb sampleUser (.ok { sampleBody with PinCode := "1100011" }) =
        ⟨[], ⟨400, "PinCode must 6 digit."⟩⟩ :=
  ⟨(AddAddress_pin_code okDb sampleUser { sampleBody with PinCode := "SW1A2A" } (by decide)
      (by decide) (by decide)).2.1 (by decide) (by decide),
   (AddAddress_pin_code okDb sampleUser { sampleBody with PinCode := "1100011" } (by decide)
      (by decide) (by decide)).2.2 (by decide)⟩

/-- The run of `UpdateAddress` on a decoded body when the address is found, as the
cascade of its guards: each field is rejected when it breaks its rule and is not
the zero value, and replaced by the stored value when it breaks its rule and is the
zero value. The longitude guard reads the latitude (line 242). -/
theorem UpdateAddress_found (db : Db) (userCtx : UserCtx) (addressId : String)
    (body : AddUserAddressBody) (userAddress : UserAddress)
    (hfound : utils.GetUserAddressById addressId userCtx.UserAddresses = some userAddress) :
    UpdateAddress db userCtx addressId (.ok body) =
      if (30 < len body.Address ∨ len body.Address ≤ 2) ∧ body.Address ≠ "" then
        ⟨[], ⟨400, "Address must be with in 2 to 30 letter."⟩⟩
      else if (16 < len body.State ∨ len body.State ≤ 2) ∧ body.State ≠ "" then
        ⟨[], ⟨400, "State must be with in 2 to 16 letter."⟩⟩
      else if (20 < len body.City ∨ len body.City ≤ 2) ∧ body.City ≠ "" then
        ⟨[], ⟨400, "City must be with in 2 to 20 letter."⟩⟩
      else if len body.PinCode ≠ 6 ∧ body.PinCode ≠ "" then
        ⟨[], ⟨400, "PinCode must 6 digit."⟩⟩
      else if (90 < body.Lat ∨ body.Lat < -90) ∧ body.Lat ≠ 0 then
        ⟨[], ⟨400, "Invalid Latitude."⟩⟩
      else if (180 < body.Lng ∨ body.Lng < -180) ∧
          (if 90 < body.Lat ∨ body.Lat < -90 then userAddress.Lat else body.Lat) ≠ 0 then
        ⟨[], ⟨400, "Invalid Longitude."⟩⟩
      else
        let call := DbCall.UpdateUserAddress addressId
          (if 30 < len body.Address ∨ len body.Address ≤ 2 then userAddress.Address
            else body.Address)
          (if 16 < len body.State ∨ len body.State ≤ 2 then userAddress.State else body.State)
          (if 20 < len body.City ∨ len body.City ≤ 2 then userAddress.City else body.City)
          (if len body.PinCode ≠ 6 then userAddress.PinCode else body.PinCode)
          (if 90 < body.Lat ∨ body.Lat < -90 then userAddress.Lat else body.Lat)
          (if 180 < body.Lng ∨ body.Lng < -180 then userAddress.Lng else body.Lng)
        if db call ≠ none then ⟨[call], ⟨500, "Failed to update Address:"⟩⟩
        else ⟨[call], ⟨201, "Address Update successfully"⟩⟩ := by
  unfold UpdateAddress
  simp -zeta only [hfound, Id.run]
  lift_lets
  intro b0 jEnd sLng jLng sLat jLat sPin jPin sCity jCity sState jState sAddr call
  have hEnd : ∀ b : AddUserAddressBody, jEnd b PUnit.unit =
      (if db (DbCall.UpdateUserAddress addressId b.Address b.State b.City b.PinCode b.Lat
          b.Lng) ≠ none then
        ⟨[DbCall.UpdateUserAddress addressId b.Address b.State b.City b.PinCode b.Lat b.Lng],
          ⟨500, "Failed to update Address:"⟩⟩
      else
        ⟨[DbCall.UpdateUserAddress addressId b.Address b.State b.City b.PinCode b.Lat b.Lng],
          ⟨201, "Address Update successfully"⟩⟩) := by
    intro b
    simp [jEnd, StatusCreated, StatusInternalServerError]
  have hLng : ∀ b : AddUserAddressBody, jLng b PUnit.unit =
      (if (180 < b.Lng ∨ b.Lng < -180) ∧ b.Lat ≠ 0 then ⟨[], ⟨400, "Invalid Longitude."⟩⟩
      else jEnd { b with Lng := if 180 < b.Lng ∨ b.Lng < -180 then userAddress.Lng else b.Lng }
        PUnit.unit) := by
    rintro ⟨x1, x2, x3, x4, x5, x6⟩
    by_cases c : 180 < x6 ∨ x6 < -180 <;> by_cases e : x5 = 0 <;>
      simp [jLng, sLng, c, e, StatusBadRequest]
  have hLat : ∀ b : AddUserAddressBody, jLat b PUnit.unit =
      (if (90 < b.Lat ∨ b.Lat < -90) ∧ b.Lat ≠ 0 then ⟨[], ⟨400, "Invalid Latitude."⟩⟩
      else jLng { b with Lat := if 90 < b.Lat ∨ b.Lat < -90 then userAddress.Lat else b.Lat }
        PUnit.unit) := by
    rintro ⟨x1, x2, x3, x4, x5, x6⟩
    by_cases c : 90 < x5 ∨ x5 < -90
    · have e : x5 ≠ 0 := by
        rintro rfl
        norm_num at c
      simp [jLat, sLat, c, e, StatusBadRequest]
    · simp [jLat, sLat, c, StatusBadRequest]
  have hPin : ∀ b : AddUserAddressBody, jPin b PUnit.unit =
      (if len b.PinCode ≠ 6 ∧ b.PinCode ≠ "" then ⟨[], ⟨400, "PinCode must 6 digit."⟩⟩
      else jLat { b with PinCode := if len b.PinCode ≠ 6 then userAddress.PinCode
        else b.PinCode } PUnit.unit) := by
    rintro ⟨x1, x2, x3, x4, x5, x6⟩
    by_cases c : len x4 = 6 <;> by_cases e : x4 = "" <;>
      simp [jPin, sPin, c, e, StatusBadRequest, len_empty]
  have hCity : ∀ b : AddUserAddressBody, jCity b PUnit.unit =
      (if (20 < len b.City ∨ len b.City ≤ 2) ∧ b.City ≠ "" then
        ⟨[], ⟨400, "City must be with in 2 to 20 letter."⟩⟩
      else jPin { b with City := if 20 < len b.City ∨ len b.City ≤ 2 then userAddress.City
        else b.City } PUnit.unit) := by
    rintro ⟨x1, x2, x3, x4, x5, x6⟩
    by_cases c : 20 < len x3 ∨ len x3 ≤ 2 <;> by_cases e : x3 = "" <;>
      simp [jCity, sCity, c, e, StatusBadRequest, len_empty]
  have hState : ∀ b : AddUserAddressBody, jState b PUnit.unit =
      (if (16 < len b.State ∨ len b.State ≤ 2) ∧ b.State ≠ "" then
        ⟨[], ⟨400, "State must be with in 2 to 16 letter."⟩⟩
      else jCity { b with State := if 16 < len b.State ∨ len b.State ≤ 2 then userAddress.State
        else b.State } PUnit.unit) := by
    rintro ⟨x1, x2, x3, x4, x5, x6⟩
    by_cases c : 16 < len x2 ∨ len x2 ≤ 2 <;> by_cases e : x2 = "" <;>
      simp [jState, sState, c, e, StatusBadRequest, len_empty]
  have hAddr : (if (decide (len b0.Address > 30) || decide (len b0.Address ≤ 2)) = true then
      if (b0.Address != "") = true then
        (pure ⟨[], ⟨StatusBadRequest, "Address must be with in 2 to 30 letter."⟩⟩ : Id Result)
      else do
        let y ← pure PUnit.unit
        sAddr b0 y
    else do
      let y ← pure PUnit.unit
      jState b0 y) =
      (if (30 < len body.Address ∨ len body.Address ≤ 2) ∧ body.Address ≠ "" then
        ⟨[], ⟨400, "Address must be with in 2 to 30 letter."⟩⟩
      else jState { body with Address := if 30 < len body.Address ∨ len body.Address ≤ 2
        then userAddress.Address else body.Address } PUnit.unit) := by
    obtain ⟨x1, x2, x3, x4, x5, x6⟩ := body
    by_cases c : 30 < len x1 ∨ len x1 ≤ 2 <;> by_cases e : x1 = "" <;>
      simp [b0, sAddr, c, e, StatusBadRequest, len_empty]
  rw [hAddr]
  simp only [hState, hCity, hPin, hLat, hLng, hEnd, call]

theorem len_sample_address : len "221B Baker Street" = 17 := by decide

theorem len_sample_state : len "Kerala" = 6 := by decide

theorem len_sample_city : len "Kochi" = 5 := by decide

theorem len_sample_pin : len "682001" = 6 := by decide

theorem sampleUser_lookup :
    utils.GetUserAddressById "a1" sampleUser.UserAddresses =
      some ⟨"a1", "12 Main Street", "Delhi", "New Delhi", "110001", 57 / 2, 77⟩ := by
  simp [utils.GetUserAddressById, sampleUser]

/-- C4 fails on the code: with every earlier field valid, request latitude 0 and
request longitude 200, `UpdateAddress` does not answer "Invalid Longitude."; it
calls `UpdateUserAddress` with the stored longitude and answers 201. -/
theorem UpdateAddress_longitude_accepted_at_zero_latitude :
    UpdateAddress okDb sampleUser "a1" (.ok { sampleBody with Lat := 0, Lng := 200 }) =
      ⟨[DbCall.UpdateUserAddress "a1" "221B Baker Street" "Kerala" "Kochi" "682001" 0 77],
        ⟨201, "Address Update successfully"⟩⟩ := by
  rw [UpdateAddress_found _ _ _ _ _ sampleUser_lookup]
  norm_num [sampleBody, okDb, len_sample_address, len_sample_state, len_sample_city,
    len_sample_pin]

/-- C5 fails on the code: with every other field valid and request latitude 0,
`UpdateAddress` passes latitude 0 to `UpdateUserAddress`, not the stored
latitude 28.5. -/
theorem UpdateAddress_zero_latitude_overwrites :
    UpdateAddress okDb sampleUser "a1" (.ok { sampleBody with Lat := 0 }) =
      ⟨[DbCall.UpdateUserAddress "a1" "221B Baker Street" "Kerala" "Kochi" "682001" 0
        (153 / 2)], ⟨201, "Address Update successfully"⟩⟩ := by
  rw [UpdateAddress_found _ _ _ _ _ sampleUser_lookup]
  norm_num [sampleBody, okDb, len_sample_address, len_sample_state, len_sample_city,
    len_sample_pin]

theorem ne_empty_of_len (s : String) (h : 3 ≤ len s) : s ≠ "" := by
  rintro rfl
  rw [len_empty] at h
  omega

/-- C6. When the address is found, the request's city is empty and every other field
passes its check (it satisfies its rule or, for a string field, is empty), the
request is not rejected for the city, and `UpdateUserAddress` is called with the city
that was stored for that address. -/
theorem UpdateAddress_empty_city (db : Db) (userCtx : UserCtx) (addressId : String)
    (body : AddUserAddressBody) (userAddress : UserAddress)
    (hfound : utils.GetUserAddressById addressId userCtx.UserAddresses = some userAddress)
    (hcity : body.City = "")
    (hA : (3 ≤ len body.Address ∧ len body.Address ≤ 30) ∨ body.Address = "")
    (hS : (3 ≤ len body.State ∧ len body.State ≤ 16) ∨ body.State = "")
    (hP : len body.PinCode = 6 ∨ body.PinCode = "")
    (hLat : -90 ≤ body.Lat ∧ body.Lat ≤ 90) (hLng : -180 ≤ body.Lng ∧ body.Lng ≤ 180) :
    (UpdateAddress db userCtx addressId (.ok body)).response.message ≠
      "City must be with in 2 to 20 letter." ∧
    (UpdateAddress db userCtx addressId (.ok body)).calls =
      [DbCall.UpdateUserAddress addressId
        (if body.Address = "" then userAddress.Address else body.Address)
        (if body.State = "" then userAddress.State else body.State)
        userAddress.City
        (if body.PinCode = "" then userAddress.PinCode else body.PinCode)
        body.Lat body.Lng] := by
  have nlat : ¬ (90 < body.Lat ∨ body.Lat < -90) := by
    rintro (h | h) <;> linarith [hLat.1, hLat.2]
  have nlng : ¬ (180 < body.Lng ∨ body.Lng < -180) := by
    rintro (h | h) <;> linarith [hLng.1, hLng.2]
  have cA : (30 < len body.Address ∨ len body.Address ≤ 2) ↔ body.Address = "" := by
    rcases hA with h | h
    · have := ne_empty_of_len _ h.1
      constructor
      · intro h'; omega
      · intro h'; exact absurd h' this
    · simp [h, len_empty]
  have cS : (16 < len body.State ∨ len body.State ≤ 2) ↔ body.State = "" := by
    rcases hS with h | h
    · have := ne_empty_of_len _ h.1
      constructor
      · intro h'; omega
      · intro h'; exact absurd h' this
    · simp [h, len_empty]
  have cP : len body.PinCode ≠ 6 ↔ body.PinCode = "" := by
    rcases hP with h | h
    · have := ne_empty_of_len body.PinCode (by omega)
      constructor
      · intro h'; exact absurd h h'
      · intro h'; exact absurd h' this
    · simp [h, len_empty]
  rw [UpdateAddress_found _ _ _ _ _ hfound]
  simp only [cA, cS, cP, hcity, len_empty, nlat, nlng]
  simp
  split_ifs <;> simp

theorem UpdateAddress_empty_city_witness :
    (UpdateAddress okDb sampleUser "a1" (.ok { sampleBody with City := "" })).response.message ≠
      "City must be with in 2 to 20 letter." ∧
    (UpdateAddress okDb sampleUser "a1" (.ok { sampleBody with City := "" })).calls =
      [DbCall.UpdateUserAddress "a1" "221B Baker Street" "Kerala" "New Delhi" "682001" 10
        (153 / 2)] :=
  UpdateAddress_empty_city okDb sampleUser "a1" { sampleBody with City := "" } _
    sampleUser_lookup rfl (Or.inl (by decide)) (Or.inl (by decide)) (Or.inl (by decide))
    (by norm_num [sampleBody]) (by norm_num [sampleBody])

/-- C7. When the lookup of the address identifier among the requesting user's own
addresses fails, `UpdateAddress` answers 400 "Address not exist" for every decoded
request body, and makes no database call. -/
theorem UpdateAddress_address_not_found (db : Db) (userCtx : UserCtx) (addressId : String)
    (body : AddUserAddressBody)
    (hmissing : utils.GetUserAddressById addressId userCtx.UserAddresses = none) :
    UpdateAddress db userCtx addressId (.ok body) = ⟨[], ⟨400, "Address not exist"⟩⟩ := by
  unfold UpdateAddress
  simp -zeta only [hmissing, Id.run]
  rfl

theorem UpdateAddress_address_not_found_witness :
    UpdateAddress okDb sampleUser "a2" (.ok sampleBody) = ⟨[], ⟨400, "Address not exist"⟩⟩ :=
  UpdateAddress_address_not_found okDb sampleUser "a2" sampleBody (by decide)

/-- C9. If the stored address satisfies every field rule, every call of
`UpdateUserAddress` that `UpdateAddress` makes, for any request body, passes values
that satisfy every field rule. -/
theorem UpdateAddress_preserves_validity (db : Db) (userCtx : UserCtx) (addressId : String)
    (parsed : Except String AddUserAddressBody) (userAddress : UserAddress)
    (hfound : utils.GetUserAddressById addressId userCtx.UserAddresses = some userAddress)
    (hvalid : ValidFields userAddress.Address userAddress.State userAddress.City
      userAddress.PinCode userAddress.Lat userAddress.Lng) :
    ∀ (id address state city pinCode : String) (lat lng : ℚ),
      DbCall.UpdateUserAddress id address state city pinCode lat lng ∈
        (UpdateAddress db userCtx addressId parsed).calls →
      ValidFields address state city pinCode lat lng := by
  intro id address state city pinCode lat lng hmem
  cases parsed with
  | error e =>
    unfold UpdateAddress at hmem
    simp -zeta only [Id.run] at hmem
    exact absurd hmem (List.not_mem_nil _)
  | ok body =>
    rw [UpdateAddress_found _ _ _ _ _ hfound] at hmem
    obtain ⟨⟨vA1, vA2⟩, ⟨vS1, vS2⟩, ⟨vC1, vC2⟩, vP, ⟨vLa1, vLa2⟩, vLn1, vLn2⟩ := hvalid
    have key : ValidFields
        (if 30 < len body.Address ∨ len body.Address ≤ 2 then userAddress.Address
          else body.Address)
        (if 16 < len body.State ∨ len body.State ≤ 2 then userAddress.State else body.State)
        (if 20 < len body.City ∨ len body.City ≤ 2 then userAddress.City else body.City)
        (if len body.PinCode ≠ 6 then userAddress.PinCode else body.PinCode)
        (if 90 < body.Lat ∨ body.Lat < -90 then userAddress.Lat else body.Lat)
        (if 180 < body.Lng ∨ body.Lng < -180 then userAddress.Lng else body.Lng) := by
      refine ⟨?_, ?_, ?_, ?_, ?_, ?_⟩
      · split_ifs with h
        · exact ⟨vA1, vA2⟩
        · omega
      · split_ifs with h
        · exact ⟨vS1, vS2⟩
        · omega
      · split_ifs with h
        · exact ⟨vC1, vC2⟩
        · omega
      · split_ifs with h
        · exact vP
        · exact not_not.mp h
      · split_ifs with h
        · exact ⟨vLa1, vLa2⟩
        · exact ⟨not_lt.mp fun h' => h (Or.inr h'), not_lt.mp fun h' => h (Or.inl h')⟩
      · split_ifs with h
        · exact ⟨vLn1, vLn2⟩
        · exact ⟨not_lt.mp fun h' => h (Or.inr h'), not_lt.mp fun h' => h (Or.inl h')⟩
    generalize (if 30 < len body.Address ∨ len body.Address ≤ 2 then userAddress.Address
          else body.Address) = a1 at hmem key
    generalize (if 16 < len body.State ∨ len body.State ≤ 2 then userAddress.State
          else body.State) = a2 at hmem key
    generalize (if 20 < len body.City ∨ len body.City ≤ 2 then userAddress.City
          else body.City) = a3 at hmem key
    generalize (if len body.PinCode ≠ 6 then userAddress.PinCode else body.PinCode) = a4
      at hmem key
    generalize (if 180 < body.Lng ∨ body.Lng < -180 then userAddress.Lng else body.Lng) = a6
      at hmem key
    by_cases g1 : (30 < len body.Address ∨ len body.Address ≤ 2) ∧ body.Address ≠ ""
    · simp [g1] at hmem
    by_cases g2 : (16 < len body.State ∨ len body.State ≤ 2) ∧ body.State ≠ ""
    · simp [g1, g2] at hmem
    by_cases g3 : (20 < len body.City ∨ len body.City ≤ 2) ∧ body.City ≠ ""
    · simp [g1, g2, g3] at hmem
    by_cases g4 : len body.PinCode ≠ 6 ∧ body.PinCode ≠ ""
    · simp [g1, g2, g3, g4] at hmem
    by_cases g5 : (90 < body.Lat ∨ body.Lat < -90) ∧ body.Lat ≠ 0
    · simp [g1, g2, g3, g4, g5] at hmem
    rw [if_neg g1, if_neg g2, if_neg g3, if_neg g4, if_neg g5] at hmem
    generalize (if 90 < body.Lat ∨ body.Lat < -90 then userAddress.Lat else body.Lat) = a5
      at hmem key
    by_cases g6 : (180 < body.Lng ∨ body.Lng < -180) ∧ a5 ≠ 0
    · simp [g6] at hmem
    rw [if_neg g6] at hmem
    have hcalls : ∀ (c : DbCall) (r1 r2 : Response) (p : Prop) [Decidable p],
        (if p then (⟨[c], r1⟩ : Result) else ⟨[c], r2⟩).calls = [c] := by
      intro c r1 r2 p _
      split_ifs <;> rfl
    simp only [hcalls, List.mem_singleton, DbCall.UpdateUserAddress.injEq] at hmem
    obtain ⟨-, rfl, rfl, rfl, rfl, rfl, rfl⟩ := hmem
    exact key

theorem UpdateAddress_sparseBody :
    UpdateAddress okDb sampleUser "a1" (.ok sparseBody) =
      ⟨[DbCall.UpdateUserAddress "a1" "12 Main Street" "Goa" "Panaji" "110001" 0 77],
        ⟨201, "Address Update successfully"⟩⟩ := by
  have l1 : len "Goa" = 3 := by decide
  have l2 : len "Panaji" = 6 := by decide
  rw [UpdateAddress_found _ _ _ _ _ sampleUser_lookup]
  norm_num [sparseBody, okDb, len_empty, l1, l2]

theorem UpdateAddress_preserves_validity_witness :
    ValidFields "12 Main Street" "Goa" "Panaji" "110001" 0 77 :=
  UpdateAddress_preserves_validity okDb sampleUser "a1" (.ok sparseBody) _ sampleUser_lookup
    ⟨by decide, by decide, by decide, by decide, by norm_num, by norm_num⟩
    "a1" "12 Main Street" "Goa" "Panaji" "110001" 0 77
    (by rw [UpdateAddress_sparseBody]; exact List.mem_singleton_self _)

end handler

namespace strings

theorem splitChars_ne_nil (sep : Char) (cs : List Char) : splitChars sep cs ≠ [] := by
  cases cs with
  | nil => simp [splitChars]
  | cons c cs =>
    unfold splitChars
    split_ifs
    · simp
    · split <;> simp

theorem splitChars_length (sep : Char) (cs : List Char) :
    (splitChars sep cs).length = cs.count sep + 1 := by
  induction cs with
  | nil => simp [splitChars]
  | cons c cs ih =>
    unfold splitChars
    split_ifs with h
    · subst h
      simp [ih]
    · have hc : (c == sep) = false := by simpa using h
      rw [List.count_cons, hc]
      split
      · rename_i heq
        exact absurd heq (splitChars_ne_nil sep cs)
      · rename_i w ws heq
        rw [heq] at ih
        simpa using ih

theorem Split_length (s : String) (sep : Char) :
    (Split s sep).length = s.data.count sep + 1 := by
  simp [Split, splitChars_length]

end strings

namespace handler

/-- C10. The index expression of `Logout`, element 1 of the authorization header
split on one space, is in range exactly when the header value contains a space.
For a header value without a space, and so for a missing or an empty header, the
index is out of range, no token is produced, and the handler makes no database call
and writes no response. When it is in range the handler goes on to delete the
session of that token. -/
theorem Logout_token_index (db : Db) (authorization : Option String) :
    (1 < (strings.Split (HeaderGet authorization) ' ').length ↔
      ' ' ∈ (HeaderGet authorization).data) ∧
    (' ' ∉ (HeaderGet authorization).data →
      (strings.Split (HeaderGet authorization) ' ')[1]? = none ∧
      Logout db authorization = none) ∧
    (' ' ∈ (HeaderGet authorization).data →
      ∃ token r, (strings.Split (HeaderGet authorization) ' ')[1]? = some token ∧
        Logout db authorization = some r ∧ r.calls = [DbCall.DeleteSessionToken token]) ∧
    Logout db none = none ∧ Logout db (some "") = none := by
  have hlen : 1 < (strings.Split (HeaderGet authorization) ' ').length ↔
      ' ' ∈ (HeaderGet authorization).data := by
    rw [strings.Split_length, ← List.count_pos_iff]
    omega
  refine ⟨hlen, ?_, ?_, ?_, ?_⟩
  · intro h
    have h1 : (strings.Split (HeaderGet authorization) ' ')[1]? = none := by
      rw [List.getElem?_eq_none_iff]
      have := mt hlen.mp h
      omega
    exact ⟨h1, by simp [Logout, h1]⟩
  · intro h
    have h1 := hlen.mpr h
    refine ⟨(strings.Split (HeaderGet authorization) ' ')[1], ?_⟩
    have h2 : (strings.Split (HeaderGet authorization) ' ')[1]? =
        some (strings.Split (HeaderGet authorization) ' ')[1] := List.getElem?_eq_getElem h1
    by_cases hdb : db (DbCall.DeleteSessionToken (strings.Split (HeaderGet authorization) ' ')[1])
        = none
    · exact ⟨_, h2, by simp [Logout, h2, hdb]; rfl, rfl⟩
    · exact ⟨_, h2, by simp [Logout, h2, hdb]; rfl, rfl⟩
  · rfl
  · rfl

theorem Logout_token_index_witness :
    ((strings.Split (HeaderGet (some "Bearer")) ' ')[1]? = none ∧
      Logout okDb (some "Bearer") = none) ∧
    ∃ token r, (strings.Split (HeaderGet (some "Bearer abc")) ' ')[1]? = some token ∧
      Logout okDb (some "Bearer abc") = some r ∧ r.calls = [DbCall.DeleteSessionToken token] :=
  ⟨(Logout_token_index okDb (some "Bearer")).2.1 (by decide),
   (Logout_token_index okDb (some "Bearer abc")).2.2.1 (by decide)⟩

end handler
